import Mathlib

/-!
Verification of the book-reader core: position codec, paginator, file
loader dispatch, annotation stores and persistence cleanup, shallowly
embedded from the Python sources.

Conventions of the embedding:
* Python `float` arithmetic on positions is modelled exactly over `ℚ`
  (the values involved are small sums `line + char / 1000`).
* Python `str` is modelled by `String`; `str.split(sep)` (always called
  with a one-character separator in these sources) is `pySplit`, which
  agrees with Python (in particular `"".split(".") = [""]`).
* Python's built-in `int(s)` is modelled by `pyInt?` below: surrounding
  whitespace is stripped, an optional sign is followed by a non-empty
  digit string in which single underscores may separate digits.  (Python
  additionally accepts non-ASCII digits; those never arise here.)
  `none` models `ValueError`.
* Python dicts are modelled as association lists in insertion order
  (Python dicts preserve insertion order and have unique keys).
-/

namespace BookReader

/-- Characters Python's `str.strip()` / regex `\s` treat as whitespace
(the ASCII ones plus NEL and NBSP; other non-ASCII space characters do
not occur in the inputs of interest). -/
def isPySpace (c : Char) : Bool :=
  c = ' ' ∨ c = '\t' ∨ c = '\n' ∨ c = '\r' ∨ c = '\x0b' ∨ c = '\x0c' ∨
  c = '\x1c' ∨ c = '\x1d' ∨ c = '\x1e' ∨ c = '\x1f' ∨ c = '\x85' ∨ c = '\xa0'

/-- Python `s.strip()`: drop leading and trailing whitespace. -/
def pyStrip (s : String) : String :=
  String.mk (((s.data.dropWhile isPySpace).reverse.dropWhile isPySpace).reverse)

/-- Digit-string parser for `pyInt?`: after the first digit, single
underscores may separate digits (as in Python's `int("1_0") = 10`). -/
def pyDigitsGo (acc : Nat) : List Char → Option Nat
  | [] => some acc
  | '_' :: c :: t =>
    if c.isDigit then pyDigitsGo (acc * 10 + (c.toNat - 48)) t else none
  | c :: t =>
    if c.isDigit then pyDigitsGo (acc * 10 + (c.toNat - 48)) t else none

/-- Non-empty digit string (with underscore separators) to `Nat`. -/
def pyDigits? : List Char → Option Nat
  | [] => none
  | c :: t => if c.isDigit then pyDigitsGo (c.toNat - 48) t else none

/-- Python's `int(s)` on a string: strip whitespace, optional sign,
non-empty digit run.  `none` models `ValueError`. -/
def pyInt? (s : String) : Option Int :=
  match (pyStrip s).data with
  | [] => none
  | '-' :: t => (pyDigits? t).map (fun n => -(n : Int))
  | '+' :: t => (pyDigits? t).map (fun n => (n : Int))
  | l => (pyDigits? l).map (fun n => (n : Int))

/-- Python `str.split(sep)` for a one-character separator, on character lists:
splitting yields one (possibly empty) chunk more than there are
separator occurrences, as in Python (`"".split(".") = [""]`,
`"a..b".split(".") = ["a", "", "b"]`). -/
def splitChar (sep : Char) : List Char → List (List Char)
  | [] => [[]]
  | c :: t =>
    match splitChar sep t with
    | [] => [[]]
    | h :: r => if c = sep then [] :: h :: r else (c :: h) :: r

/-- Python `s.split(sep)` for the one-character separators used by the
sources (`'.'` for positions, `'\n'` for lines). -/
def pySplit (sep : Char) (s : String) : List String :=
  (splitChar sep s.data).map String.mk

/-- Model of `validate_position` (helpers.py:133-148):
`line_num, char_num = map(int, position.split('.'))` demands exactly two
dot-separated components, each parsing as an integer (otherwise the
`except` clause returns `False`); then `1 <= line_num <= len(lines)` and
`0 <= char_num <= len(lines[line_num - 1])` are required. -/
def validate_position (position text : String) : Bool :=
  match pySplit '.' position with
  | [a, b] =>
    match pyInt? a, pyInt? b with
    | some line_num, some char_num =>
      let lines := pySplit '\n' text
      if line_num < 1 ∨ line_num > (lines.length : Int) then false
      else
        let line := lines.getD (line_num - 1).toNat ""
        if char_num < 0 ∨ char_num > (line.length : Int) then false
        else true
    | _, _ => false
  | _ => false

/-! ### File loader (file_manager.py) -/

/-- Index of the last occurrence of `c`, as in Python's `str.rfind`
except that `none` stands for Python's `-1`. -/
def lastIdxOf (c : Char) : List Char → Option Nat
  | [] => none
  | x :: t =>
    match lastIdxOf c t with
    | some i => some (i + 1)
    | none => if x = c then some 0 else none

/-- Python `str.rfind` proper: `-1` when absent. -/
def rfindInt (c : Char) (l : List Char) : Int :=
  match lastIdxOf c l with
  | some i => (i : Int)
  | none => -1

/-- The extension component of `os.path.splitext` (posix rules): the
suffix from the last `'.'` that lies after the last `'/'`, unless every
basename character before that dot is itself a dot (so `".bashrc"` has
no extension). -/
def splitext_ext (p : String) : String :=
  let l := p.data
  let sepIndex := rfindInt '/' l
  let dotIndex := rfindInt '.' l
  if dotIndex > sepIndex ∧
      ((l.drop (sepIndex + 1).toNat).take (dotIndex - sepIndex - 1).toNat).any (· ≠ '.') then
    String.mk (l.drop dotIndex.toNat)
  else ""

/-- ASCII lowering of one character, modelling `str.lower` per
character.  Python's Unicode lowering maps no character other than an
ASCII uppercase letter into the alphabet of the supported extensions,
so dispatch verdicts agree. -/
def pyLowerChar (c : Char) : Char :=
  if 'A' ≤ c ∧ c ≤ 'Z' then Char.ofNat (c.toNat + 32) else c

/-- Python `s.lower()`. -/
def pyLower (s : String) : String :=
  String.mk (s.data.map pyLowerChar)

/-- The `FileManager.load_file` failure modes (`NotFound` is Python's
`FileNotFoundError`, `UnsupportedFormat` its `ValueError`). -/
inductive LoadError where
  | NotFound
  | UnsupportedFormat
deriving DecidableEq

/-- Model of `self.supported_formats = list(self.readers.keys())`
(file_manager.py:13-18); dict keys in insertion order. -/
def supported_formats : List String := [".epub", ".pdf", ".txt"]

/-- Model of `FileManager.load_file` (file_manager.py:20-33).  The filesystem is
abstracted by the predicate `file_exists` (`os.path.exists`); a
successful result `(ext, filepath)` records exactly which reader was
invoked on which path (`self.readers[ext].read(filepath)`), so an
`error` result is precisely "no reader was invoked". -/
def load_file (file_exists : String → Bool) (filepath : String) :
    Except LoadError (String × String) :=
  if ¬ file_exists filepath then .error .NotFound
  else
    let ext := splitext_ext (pyLower filepath)
    if ¬ supported_formats.contains ext then .error .UnsupportedFormat
    else .ok (ext, filepath)

/-! ### Paginator (text_viewer.py) -/

/-- The `content_data` dict fields used by `create_pages`; a missing or
empty `title`/`author` is the falsy `""`. -/
structure ContentData where
  title : String
  author : String
  content : String
deriving DecidableEq

/-- The `full_text` assembled at text_viewer.py:101-109: optional title
block, optional author byline with a 50-character `=` separator, then
the content. -/
def buildFullText (cd : ContentData) : String :=
  (if cd.title ≠ "" then cd.title ++ "\n\n" else "") ++
    (if cd.author ≠ "" then
      "by " ++ cd.author ++ "\n\n" ++ String.mk (List.replicate 50 '=') ++ "\n\n"
    else "") ++
    cd.content

/-- Index of the last `'\n'` in the maximal whitespace prefix of `t`,
plus one: the number of characters of `t` consumed by the regex
separator `\n\s*\n` when it matches starting at a `'\n'` directly
before `t`.  `none` when the whitespace prefix contains no newline,
i.e. the regex does not match there. -/
def blankSepLen (t : List Char) : Option Nat :=
  match lastIdxOf '\n' (t.takeWhile isPySpace) with
  | some i => some (i + 1)
  | none => none

/-- Worker for `re.split(r'\n\s*\n', text)`: scan left to right; at each
`'\n'` whose following whitespace run contains another `'\n'`, the
(greedy, leftmost) match extends to the last `'\n'` of that run and a
split occurs there.  `fuel` bounds the recursion; it is called with
`length + 1`, which the scan (consuming at least one character per
step) never exhausts. -/
def splitBlankGo : Nat → List Char → List Char → List (List Char)
  | 0, l, acc => [acc.reverse ++ l]
  | _ + 1, [], acc => [acc.reverse]
  | fuel + 1, '\n' :: t, acc =>
    match blankSepLen t with
    | some k => acc.reverse :: splitBlankGo fuel (t.drop k) []
    | none => splitBlankGo fuel t ('\n' :: acc)
  | fuel + 1, c :: t, acc => splitBlankGo fuel t (c :: acc)

/-- Model of `re.split(r'\n\s*\n', s)` (text_viewer.py:112): split on every
blank-line separator, i.e. on each maximal whitespace run containing at
least two newlines, cutting from its first to its last newline. -/
def pysplitBlank (s : String) : List String :=
  (splitBlankGo (s.data.length + 1) s.data []).map String.mk

/-- The estimate `paragraph_lines = max(1, len(paragraph) // 80) + 2`
(text_viewer.py:121). -/
def paragraph_lines (p : String) : Nat :=
  max 1 (p.length / 80) + 2

/-- The accumulation loop of `create_pages` (text_viewer.py:116-134),
with a page represented by the list of paragraphs whose
`paragraph + "\n\n"` blocks the source concatenates into
`current_page_text` (the page string itself is `render_page` below;
`current_page_text` is truthy exactly when this list is non-empty,
because only paragraphs with non-blank `strip()` are ever appended).
The final `if current_page_text.strip()` append of the remaining page
is the `[]` case. -/
def pagesLoop (lpp : Nat) : List String → List String → Nat → List (List String) →
    List (List String)
  | [], cur, _, pages => if cur.isEmpty then pages else pages ++ [cur]
  | p :: t, cur, est, pages =>
    if pyStrip p = "" then pagesLoop lpp t cur est pages
    else
      let pl := paragraph_lines p
      if est + pl > lpp ∧ ¬ cur.isEmpty then
        pagesLoop lpp t [p] pl (pages ++ [cur])
      else
        pagesLoop lpp t (cur ++ [p]) (est + pl) pages

/-- The page string the source stores for an accumulated paragraph
list: `(p₁ + "\n\n" + ⋯ + pₖ + "\n\n").strip()`. -/
def render_page (cur : List String) : String :=
  pyStrip (String.join (cur.map (· ++ "\n\n")))

/-- Model of `TextViewer.create_pages` (text_viewer.py:97-138) at the paragraph
level: the list of pages, each a list of whole source paragraphs.  When
no page was produced, the fallback page `[full_text or "No content
available"]` is emitted. -/
def create_pages (cd : ContentData) (lines_per_page : Nat) : List (List String) :=
  let full_text := buildFullText cd
  let pages := pagesLoop lines_per_page (pysplitBlank full_text) [] 0 []
  if pages.isEmpty then [[if full_text ≠ "" then full_text else "No content available"]]
  else pages

/-- Model of `TextViewer.create_pages`, with pages rendered to the page strings
actually stored in `self.pages` (the fallback page is stored verbatim,
not stripped). -/
def create_pages_text (cd : ContentData) (lines_per_page : Nat) : List String :=
  let full_text := buildFullText cd
  let pages := pagesLoop lines_per_page (pysplitBlank full_text) [] 0 []
  if pages.isEmpty then [if full_text ≠ "" then full_text else "No content available"]
  else pages.map render_page

/-- The navigation state of `TextViewer`: the page list and the
0-indexed current page (a Python `int`). -/
structure ViewerState where
  pages : List String
  current_page : Int
deriving DecidableEq

/-- Model of `TextViewer.display_page` (text_viewer.py:140-163): rejects an empty
page list or an out-of-range index with `False` and no state change;
otherwise sets `current_page` and returns `True`.  (The widget
rendering it also performs is UI-only and not modelled.) -/
def display_page (st : ViewerState) (page_number : Int) : ViewerState × Bool :=
  if st.pages.isEmpty ∨ page_number < 0 ∨ page_number ≥ (st.pages.length : Int) then
    (st, false)
  else
    ({ st with current_page := page_number }, true)

/-- Model of `TextViewer.next_page` (text_viewer.py:165-169). -/
def next_page (st : ViewerState) : ViewerState × Bool :=
  if st.current_page < (st.pages.length : Int) - 1 then
    display_page st (st.current_page + 1)
  else (st, false)

/-- Model of `TextViewer.previous_page` (text_viewer.py:171-175). -/
def previous_page (st : ViewerState) : ViewerState × Bool :=
  if st.current_page > 0 then display_page st (st.current_page - 1)
  else (st, false)

/-! ### Bookmarks (bookmark_manager.py) -/

/-- The four stores touched by `cleanup_orphaned_data`, as association
lists keyed by book ID (Python dicts: insertion order, unique keys).
Value types are abstract. -/
structure DataStorage (α β γ δ : Type) where
  library_data : List (String × δ)
  highlights_data : List (String × α)
  notes_data : List (String × β)
  bookmarks_data : List (String × γ)
deriving DecidableEq

/-- Model of `DataStorage.cleanup_orphaned_data` (storage.py:202-226): delete
every entry of the three annotation stores whose book ID is not a
library key and return how many were deleted.  The source counts
`len(set(keys) - valid)` per store and deletes those keys; on a dict
(unique keys) that is exactly the number of entries removed, i.e. the
length of the removed sublist.  (The `safe_json_save` calls persist the
result and do not affect it.) -/
def cleanup_orphaned_data (s : DataStorage α β γ δ) : DataStorage α β γ δ × Nat :=
  let valid_book_ids := s.library_data.map Prod.fst
  let orphanedH := s.highlights_data.filter (fun p => ! valid_book_ids.contains p.1)
  let orphanedN := s.notes_data.filter (fun p => ! valid_book_ids.contains p.1)
  let orphanedB := s.bookmarks_data.filter (fun p => ! valid_book_ids.contains p.1)
  ({ s with
      highlights_data := s.highlights_data.filter (fun p => valid_book_ids.contains p.1),
      notes_data := s.notes_data.filter (fun p => valid_book_ids.contains p.1),
      bookmarks_data := s.bookmarks_data.filter (fun p => valid_book_ids.contains p.1) },
    orphanedH.length + orphanedN.length + orphanedB.length)

/-! ### Claim-specific auxiliary definitions -/

/-- C8: `validate_position` returns true exactly when the position has
two dot-separated integer components `l.c` with `l` within
`[1, number of lines]` and `c` within `[0, length of line l]` (lines
from splitting the text on newlines, 1-indexed); any line or char out
of those bounds — and any unparsable position — yields false. -/
theorem claim_C8_validate_position_iff (position text : String) :
    validate_position position text = true ↔
      ∃ (a b : String) (l c : Int),
        pySplit '.' position = [a, b] ∧ pyInt? a = some l ∧ pyInt? b = some c ∧
        1 ≤ l ∧ l ≤ ((pySplit '\n' text).length : Int) ∧
        0 ≤ c ∧ c ≤ (((pySplit '\n' text).getD (l - 1).toNat "").length : Int) := by
  constructor
  · intro h
    unfold validate_position at h
    rcases hs : pySplit '.' position with _ | ⟨a, _ | ⟨b, _ | ⟨x, rest⟩⟩⟩ <;>
      rw [hs] at h
    · simp at h
    · simp at h
    · rcases hA : pyInt? a with _ | l <;> rcases hB : pyInt? b with _ | c <;>
        simp only [hA, hB] at h <;> try simp at h
      obtain ⟨⟨hl1, hl2⟩, hc1, hc2⟩ := h
      refine ⟨a, b, l, c, rfl, hA, hB, hl1, hl2, hc1, ?_⟩
      rw [List.getD_eq_getElem?_getD]
      have ht : (l - 1).toNat = l.toNat - 1 := by omega
      rw [ht]
      exact hc2
    · simp at h
  · rintro ⟨a, b, l, c, hs, hA, hB, hl1, hl2, hc1, hc2⟩
    unfold validate_position
    rw [hs]
    simp only [hA, hB]
    rw [if_neg (by omega), if_neg (by push_neg; exact ⟨hc1, hc2⟩)]

/-- Witness for C8 at position "2.3" in a two-line text whose second
line has length 4. -/
theorem claim_C8_witness :
    validate_position "2.3" "ab\ncdef" = true :=
  (claim_C8_validate_position_iff "2.3" "ab\ncdef").mpr
    ⟨"2", "3", 2, 3, by decide, by decide, by decide, by decide, by decide,
      by decide, by decide⟩

/-! ### C3: loader failure modes -/

/-- C3: for every filesystem and filepath, the loader fails with
`NotFound` when the path does not exist (regardless of the extension,
since the existence check precedes extension dispatch), fails with
`UnsupportedFormat` when the path exists but the lower-cased
extension is not one of `.epub/.pdf/.txt`, and invokes a reader —
produces an `ok` result recording the dispatched reader and path —
only when the path exists and the extension is supported. -/
theorem claim_C3_load_file (file_exists : String → Bool) (filepath : String) :
    (file_exists filepath = false →
      load_file file_exists filepath = .error .NotFound) ∧
    (file_exists filepath = true →
      supported_formats.contains (splitext_ext (pyLower filepath)) = false →
      load_file file_exists filepath = .error .UnsupportedFormat) ∧
    (∀ r, load_file file_exists filepath = .ok r →
      file_exists filepath = true ∧
      supported_formats.contains (splitext_ext (pyLower filepath)) = true ∧
      r = (splitext_ext (pyLower filepath), filepath)) := by
  refine ⟨fun hf => ?_, fun hf hs => ?_, fun r hr => ?_⟩
  · simp [load_file, hf]
  · have hs' : splitext_ext (pyLower filepath) ∉ supported_formats := by simpa using hs
    simp [load_file, hf, hs']
  · unfold load_file at hr
    rcases hf : file_exists filepath with _ | _ <;> rw [hf] at hr <;> simp at hr
    by_cases hm : splitext_ext (pyLower filepath) ∈ supported_formats
    · rw [if_pos hm] at hr
      simp at hr
      exact ⟨rfl, by simpa using hm, hr.symm⟩
    · rw [if_neg hm] at hr
      simp at hr

/-- Witness for C3: a missing `.docx` path yields `NotFound`; an
existing `.docx` path yields `UnsupportedFormat`. -/
theorem claim_C3_witness :
    load_file (fun _ => false) "book.docx" = .error .NotFound ∧
    load_file (fun _ => true) "book.docx" = .error .UnsupportedFormat :=
  ⟨(claim_C3_load_file (fun _ => false) "book.docx").1 rfl,
    (claim_C3_load_file (fun _ => true) "book.docx").2.1 rfl (by decide)⟩

/-! ### C7: navigation boundary behaviour -/

/-- C7: `display_page` with an out-of-range page number returns `False`
and leaves the state (hence the current page) unchanged; `next_page`
at the last page and `previous_page` at the first page do likewise. -/
theorem claim_C7_navigation_bounds (st : ViewerState) (n : Int) :
    ((n < 0 ∨ (st.pages.length : Int) ≤ n ∨ st.pages = []) →
      display_page st n = (st, false)) ∧
    (st.current_page = (st.pages.length : Int) - 1 → next_page st = (st, false)) ∧
    (st.current_page = 0 → previous_page st = (st, false)) := by
  refine ⟨fun h => ?_, fun h => ?_, fun h => ?_⟩
  · unfold display_page
    rw [if_pos]
    rcases h with h | h | h
    · exact Or.inr (Or.inl h)
    · exact Or.inr (Or.inr h)
    · exact Or.inl (by simp [h])
  · unfold next_page
    rw [if_neg (by omega)]
  · unfold previous_page
    rw [if_neg (by omega)]

/-- Witness for C7: a two-page state at its last page rejects page 5
and `next`; a one-page state at its first page rejects `previous`. -/
theorem claim_C7_witness :
    display_page ⟨["a", "b"], 1⟩ 5 = (⟨["a", "b"], 1⟩, false) ∧
    next_page ⟨["a", "b"], 1⟩ = (⟨["a", "b"], 1⟩, false) ∧
    previous_page ⟨["a"], 0⟩ = (⟨["a"], 0⟩, false) :=
  ⟨(claim_C7_navigation_bounds ⟨["a", "b"], 1⟩ 5).1 (Or.inr (Or.inl (by decide))),
    (claim_C7_navigation_bounds ⟨["a", "b"], 1⟩ 5).2.1 (by decide),
    (claim_C7_navigation_bounds ⟨["a"], 0⟩ 0).2.2 (by decide)⟩

/-! ### C6: cleanup of orphaned annotation data -/

/-- C6: the cleanup sweep keeps exactly the annotation entries whose
book ID is a library key (all of them unchanged, the membership
characterisations below), removes all others, leaves the library
untouched, and the returned count plus the surviving entries accounts
for every original entry (i.e. the count is the total number of
entries removed).  In particular, with a library containing only book
A and highlight entries for books A and B, exactly B's entry is
removed and the count is 1. -/
theorem claim_C6_cleanup_orphaned_data :
    (∀ (α β γ δ : Type) (s : DataStorage α β γ δ),
      (cleanup_orphaned_data s).1.library_data = s.library_data ∧
      (∀ p, p ∈ (cleanup_orphaned_data s).1.highlights_data ↔
        p ∈ s.highlights_data ∧ p.1 ∈ s.library_data.map Prod.fst) ∧
      (∀ p, p ∈ (cleanup_orphaned_data s).1.notes_data ↔
        p ∈ s.notes_data ∧ p.1 ∈ s.library_data.map Prod.fst) ∧
      (∀ p, p ∈ (cleanup_orphaned_data s).1.bookmarks_data ↔
        p ∈ s.bookmarks_data ∧ p.1 ∈ s.library_data.map Prod.fst) ∧
      (cleanup_orphaned_data s).2 +
          ((cleanup_orphaned_data s).1.highlights_data.length +
            (cleanup_orphaned_data s).1.notes_data.length +
            (cleanup_orphaned_data s).1.bookmarks_data.length) =
        s.highlights_data.length + s.notes_data.length +
          s.bookmarks_data.length) ∧
    cleanup_orphaned_data
        (⟨[("A", "bookA")], [("A", "hA"), ("B", "hB")], [], []⟩ :
          DataStorage String String String String) =
      (⟨[("A", "bookA")], [("A", "hA")], [], []⟩, 1) := by
  constructor
  · intro α β γ δ s
    refine ⟨rfl, fun p => ?_, fun p => ?_, fun p => ?_, ?_⟩
    · simp [cleanup_orphaned_data, List.mem_filter]
    · simp [cleanup_orphaned_data, List.mem_filter]
    · simp [cleanup_orphaned_data, List.mem_filter]
    · have hH := List.length_eq_length_filter_add
        (l := s.highlights_data)
        (fun p => (s.library_data.map Prod.fst).contains p.1)
      have hN := List.length_eq_length_filter_add
        (l := s.notes_data)
        (fun p => (s.library_data.map Prod.fst).contains p.1)
      have hB := List.length_eq_length_filter_add
        (l := s.bookmarks_data)
        (fun p => (s.library_data.map Prod.fst).contains p.1)
      simp only [cleanup_orphaned_data]
      omega
  · decide

/-! ### C9: at least one page, placeholder for empty content -/

/-- C9: for every content (title, author and body) and every
lines-per-page budget the paginator produces at least one page, and for
the empty content it produces exactly the single placeholder page
`"No content available"`. -/
theorem claim_C9_page_count_pos :
    (∀ (cd : ContentData) (lpp : Nat), 1 ≤ (create_pages_text cd lpp).length) ∧
    (∀ lpp : Nat, create_pages_text ⟨"", "", ""⟩ lpp = ["No content available"]) := by
  constructor
  · intro cd lpp
    by_cases h : (pagesLoop lpp (pysplitBlank (buildFullText cd)) [] 0 []).isEmpty
    · simp [create_pages_text, h]
    · simp only [create_pages_text, h, if_neg Bool.false_ne_true, List.length_map]
      have := List.isEmpty_eq_false_iff_exists_mem.mp (by simpa using h)
      rcases this with ⟨x, hx⟩
      exact List.length_pos.mpr (List.ne_nil_of_mem hx)
  · intro lpp
    have hft : buildFullText ⟨"", "", ""⟩ = "" := by decide
    have hsp : pysplitBlank "" = [""] := by decide
    have hstrip : pyStrip "" = "" := by decide
    have hloop : pagesLoop lpp [""] [] 0 [] = [] := by
      simp [pagesLoop, hstrip]
    unfold create_pages_text
    simp only [hft, hsp, hloop]
    simp

/-! ### C10: sortedness of bookmark queries -/

/-- The paragraphs on the pages produced by the accumulation loop are
exactly the pending page, then the non-blank remaining paragraphs, in
order, after the pages already emitted. -/
theorem pagesLoop_flatten (lpp : Nat) :
    ∀ (t cur : List String) (est : Nat) (pages : List (List String)),
      (pagesLoop lpp t cur est pages).flatten =
        pages.flatten ++ cur ++ t.filter (fun p => decide (pyStrip p ≠ "")) := by
  intro t
  induction t with
  | nil =>
    intro cur est pages
    simp only [pagesLoop]
    by_cases h : cur.isEmpty
    · rw [if_pos h]
      have hc : cur = [] := List.isEmpty_iff.mp h
      simp [hc]
    · rw [if_neg h]
      simp
  | cons p t ih =>
    intro cur est pages
    simp only [pagesLoop]
    by_cases hb : pyStrip p = ""
    · rw [if_pos hb, ih]
      have hf : (p :: t).filter (fun q => decide (pyStrip q ≠ "")) =
          t.filter (fun q => decide (pyStrip q ≠ "")) := by
        simp [List.filter_cons, hb]
      rw [hf]
    · rw [if_neg hb]
      have hf : (p :: t).filter (fun q => decide (pyStrip q ≠ "")) =
          p :: t.filter (fun q => decide (pyStrip q ≠ "")) := by
        simp [List.filter_cons, hb]
      by_cases hc : est + paragraph_lines p > lpp ∧ ¬ cur.isEmpty
      · rw [if_pos hc, ih, hf]
        simp
      · rw [if_neg hc, ih, hf]
        simp

/-- Every page emitted by the accumulation loop carries at least one
paragraph (a pending page is only ever emitted when non-empty). -/
theorem pagesLoop_pages_ne_nil (lpp : Nat) :
    ∀ (t cur : List String) (est : Nat) (pages : List (List String)),
      (∀ pg ∈ pages, pg ≠ []) →
      ∀ pg ∈ pagesLoop lpp t cur est pages, pg ≠ [] := by
  intro t
  induction t with
  | nil =>
    intro cur est pages hp pg hpg
    simp only [pagesLoop] at hpg
    by_cases h : cur.isEmpty
    · rw [if_pos h] at hpg
      exact hp pg hpg
    · rw [if_neg h] at hpg
      rcases List.mem_append.mp hpg with h2 | h2
      · exact hp pg h2
      · have hcur : pg = cur := by simpa using h2
        rw [hcur]
        simpa [List.isEmpty_iff] using h
  | cons p t ih =>
    intro cur est pages hp pg hpg
    simp only [pagesLoop] at hpg
    by_cases hb : pyStrip p = ""
    · rw [if_pos hb] at hpg
      exact ih cur est pages hp pg hpg
    · rw [if_neg hb] at hpg
      by_cases hc : est + paragraph_lines p > lpp ∧ ¬ cur.isEmpty
      · rw [if_pos hc] at hpg
        refine ih [p] _ _ ?_ pg hpg
        intro pg2 hpg2
        rcases List.mem_append.mp hpg2 with h2 | h2
        · exact hp pg2 h2
        · have hcur : pg2 = cur := by simpa using h2
          rw [hcur]
          simpa [List.isEmpty_iff] using hc.2
      · rw [if_neg hc] at hpg
        exact ih (cur ++ [p]) _ _ hp pg hpg

/-- C2: whenever the assembled full text contains at least one
non-blank paragraph, concatenating the paragraph content of all
produced pages reproduces exactly the original sequence of non-blank
paragraphs, in order and with every paragraph whole on a single page,
and every page carries at least one whole paragraph (even a paragraph
whose line estimate alone exceeds the budget gets its own page rather
than being split). -/
theorem claim_C2_pagination_preserves_paragraphs (cd : ContentData) (lpp : Nat)
    (h : (pysplitBlank (buildFullText cd)).filter
      (fun p => decide (pyStrip p ≠ "")) ≠ []) :
    (create_pages cd lpp).flatten =
      (pysplitBlank (buildFullText cd)).filter (fun p => decide (pyStrip p ≠ "")) ∧
    ∀ pg ∈ create_pages cd lpp, pg ≠ [] := by
  have hjoin := pagesLoop_flatten lpp (pysplitBlank (buildFullText cd)) [] 0 []
  simp only [List.flatten_nil, List.nil_append] at hjoin
  have hne : ¬ (pagesLoop lpp (pysplitBlank (buildFullText cd)) [] 0 []).isEmpty := by
    intro habs
    have hempty : pagesLoop lpp (pysplitBlank (buildFullText cd)) [] 0 [] = [] :=
      List.isEmpty_iff.mp habs
    rw [hempty] at hjoin
    exact h hjoin.symm
  constructor
  · simp only [create_pages]
    rw [if_neg hne]
    exact hjoin
  · simp only [create_pages]
    rw [if_neg hne]
    exact pagesLoop_pages_ne_nil lpp _ [] 0 [] (by simp)

/-- Witness for C2 on a two-paragraph document. -/
theorem claim_C2_witness :
    (pysplitBlank (buildFullText ⟨"", "", "Hello\n\nWorld"⟩)).filter
        (fun p => decide (pyStrip p ≠ "")) ≠ [] ∧
    ((create_pages ⟨"", "", "Hello\n\nWorld"⟩ 25).flatten =
      (pysplitBlank (buildFullText ⟨"", "", "Hello\n\nWorld"⟩)).filter
        (fun p => decide (pyStrip p ≠ "")) ∧
    ∀ pg ∈ create_pages ⟨"", "", "Hello\n\nWorld"⟩ 25, pg ≠ []) :=
  ⟨by decide,
    claim_C2_pagination_preserves_paragraphs ⟨"", "", "Hello\n\nWorld"⟩ 25 (by decide)⟩

/-- C2 counterexample for the unrestricted claim: for empty content the
single emitted page is the synthetic placeholder, whose content is not
among the (zero) original non-blank paragraphs, so the concatenation
does not reproduce the original sequence. -/
theorem claim_C2_counterexample :
    create_pages ⟨"", "", ""⟩ 25 = [["No content available"]] ∧
    (pysplitBlank (buildFullText ⟨"", "", ""⟩)).filter
      (fun p => decide (pyStrip p ≠ "")) = [] ∧
    (create_pages ⟨"", "", ""⟩ 25).flatten ≠
      (pysplitBlank (buildFullText ⟨"", "", ""⟩)).filter
        (fun p => decide (pyStrip p ≠ "")) := by
  refine ⟨by decide, by decide, by decide⟩

end BookReader
